import Mathlib

/-! Threshold sliders of the eva report page (`eva.js`).

A shallow embedding of `src/dmppl/experiments/eva/share/eva.js` together with
the fragment of the JavaScript and DOM semantics the script relies on:

* strings are sequences of UTF-16 code units, and `<` on two strings is the
  code-unit lexicographic order;
* `parseFloat` and the string-to-number coercion of the relational operators
  are two different functions, both followed by rounding to a binary64 value;
* `getElementsByClassName` is a live collection, re-read at every use;
* `classList.add` and `classList.remove` work on the ordered token set of an
  element.

The development is organised as: platform model, embedding of the three
functions and of the ready handler, general lemmas, and the properties of the
script.
-/

namespace Eva

/-! ## JavaScript strings -/

/-- A JavaScript string: its UTF-16 code units. -/
abbrev JSString := List Nat

/-- UTF-16 encoding of one code point. -/
def utf16Char (c : Char) : List Nat :=
  if c.toNat < 0x10000 then [c.toNat]
  else [0xD800 + (c.toNat - 0x10000) / 0x400, 0xDC00 + (c.toNat - 0x10000) % 0x400]

/-- The JavaScript string denoted by a literal of the source text. -/
def utf16 (s : String) : JSString :=
  (s.toList.map utf16Char).flatten

/-- String case of the abstract relational comparison `x < y`: the first
differing code unit decides, and a proper prefix is smaller. -/
def stringLessThan : JSString → JSString → Bool
  | [], [] => false
  | [], _ :: _ => true
  | _ :: _, [] => false
  | x :: xs, y :: ys =>
    if x < y then true else if y < x then false else stringLessThan xs ys

/-! ## JavaScript numbers -/

/-- A Number value as the relational operators see it. A finite binary64 value
is an integer multiple of the least subnormal `2^-1074`; `finite z` stands for
`z * 2^-1074`, so that comparing two finite values is comparing the integers.
The sign of zero is not observable through `<`, `<=`, `>`, `>=` and is not
kept. -/
inductive JSNumber where
  | nan
  | negInf
  | finite (z : Int)
  | posInf
  deriving DecidableEq, Repr

namespace JSNumber

/-- The scale of `finite`: `2^1074`. -/
def scale : Nat := 1 <<< 1074

/-- The Number value of an integer of small magnitude (exactly representable). -/
def ofInt (n : Int) : JSNumber := finite (n * (scale : Int))

/-- Mathematical `x < y` on Number values; nothing is below or above `nan`. -/
def lt : JSNumber → JSNumber → Bool
  | nan, _ => false
  | _, nan => false
  | negInf, negInf => false
  | negInf, _ => true
  | finite _, negInf => false
  | finite a, finite b => decide (a < b)
  | finite _, posInf => true
  | posInf, _ => false

/-- Mathematical `x ≤ y` on Number values; `nan` is related to nothing. -/
def le : JSNumber → JSNumber → Bool
  | nan, _ => false
  | _, nan => false
  | negInf, _ => true
  | finite _, negInf => false
  | finite a, finite b => decide (a ≤ b)
  | finite _, posInf => true
  | posInf, posInf => true
  | posInf, _ => false

end JSNumber

/-! ### Rounding a decimal to binary64 -/

/-- Number of binary digits of `n`, with `fuel` bounding the recursion. -/
def bitLengthAux : Nat → Nat → Nat
  | 0, _ => 0
  | fuel + 1, n => if n = 0 then 0 else bitLengthAux fuel (n / 2) + 1

/-- Number of binary digits of `n` (`0` for `0`). -/
def bitLength (n : Nat) : Nat := bitLengthAux n n

/-- Nearest integer to `a / d`, ties to the even one. -/
def roundTiesToEven (a d : Nat) : Nat :=
  let f := a / d
  let r := a % d
  if 2 * r < d then f else if d < 2 * r then f + 1 else if f % 2 = 0 then f else f + 1

/-- Floor of the binary logarithm of `num / den`, for positive `num`, `den`. -/
def floorLog2 (num den : Nat) : Int :=
  let k : Int := (bitLength num : Int) - (bitLength den : Int)
  let reached : Bool :=
    if 0 ≤ k then decide (den <<< k.toNat ≤ num) else decide (den ≤ num <<< (-k).toNat)
  if reached then k else k - 1

/-- The binary64 magnitude nearest to `num / den` (round to nearest, ties to
even, 53 significant bits, gradual underflow), scaled by `2^1074`; `none` when
the rounded magnitude reaches `2^1024`. -/
def roundBinary64 (num den : Nat) : Option Nat :=
  if num = 0 then some 0
  else
    let k := floorLog2 num den
    let e : Int := if k < -1022 then -1022 else k
    let ulp : Int := e - 52
    let n : Nat :=
      if ulp ≤ 0 then roundTiesToEven (num <<< (-ulp).toNat) den
      else roundTiesToEven num (den <<< ulp.toNat)
    let z : Nat := n <<< (e + 1022).toNat
    if z < 1 <<< 2098 then some z else none

/-- The Number value of the decimal `(-1)^neg * mant * 10^exp`. -/
def numberValue (neg : Bool) (mant : Nat) (exp : Int) : JSNumber :=
  let r := if 0 ≤ exp then roundBinary64 (mant * 10 ^ exp.toNat) 1
           else roundBinary64 mant (10 ^ (-exp).toNat)
  match r with
  | some z => .finite (if neg then -(z : Int) else (z : Int))
  | none => if neg then .negInf else .posInf

/-! ### Numeric string grammar -/

/-- The production `StrWhiteSpaceChar`: white space and line terminators. -/
def isStrWhiteSpaceChar (u : Nat) : Bool :=
  u == 0x09 || u == 0x0A || u == 0x0B || u == 0x0C || u == 0x0D || u == 0x20 ||
  u == 0xA0 || u == 0x1680 || (decide (0x2000 ≤ u) && decide (u ≤ 0x200A)) ||
  u == 0x2028 || u == 0x2029 || u == 0x202F || u == 0x205F || u == 0x3000 ||
  u == 0xFEFF

/-- A decimal digit `0`..`9`. -/
def isDecimalDigit (u : Nat) : Bool := decide (48 ≤ u) && decide (u ≤ 57)

/-- Value of a hexadecimal digit, also used for the octal and binary forms. -/
def hexDigitValue (u : Nat) : Option Nat :=
  if 48 ≤ u ∧ u ≤ 57 then some (u - 48)
  else if 97 ≤ u ∧ u ≤ 102 then some (u - 87)
  else if 65 ≤ u ∧ u ≤ 70 then some (u - 55)
  else none

/-- Splits off the longest run of decimal digits, returned as digit values. -/
def takeDigits : JSString → List Nat × JSString
  | [] => ([], [])
  | u :: us =>
    if isDecimalDigit u then ((u - 48) :: (takeDigits us).1, (takeDigits us).2)
    else ([], u :: us)

/-- The integer written by a list of digit values in the given radix. -/
def digitsValue (radix : Nat) (ds : List Nat) : Nat :=
  ds.foldl (fun acc d => radix * acc + d) 0

/-- Removes a literal prefix. -/
def dropPrefix : JSString → JSString → Option JSString
  | [], s => some s
  | _ :: _, [] => none
  | p :: ps, u :: us => if p = u then dropPrefix ps us else none

/-- The production `ExponentPart` at the head of `s`: the exponent and the
rest, or `none` when `s` does not start with a complete exponent part. -/
def exponentPart (s : JSString) : Option (Int × JSString) :=
  match s with
  | [] => none
  | u :: t =>
    if u = 101 ∨ u = 69 then
      match t with
      | 43 :: t1 =>
        let ds := takeDigits t1
        if ds.1 = [] then none else some ((digitsValue 10 ds.1 : Int), ds.2)
      | 45 :: t1 =>
        let ds := takeDigits t1
        if ds.1 = [] then none else some (-(digitsValue 10 ds.1 : Int), ds.2)
      | _ =>
        let ds := takeDigits t
        if ds.1 = [] then none else some ((digitsValue 10 ds.1 : Int), ds.2)
    else none

/-- Magnitude denoted by a `StrUnsignedDecimalLiteral`. -/
inductive Magnitude where
  | infinity
  | decimal (mant : Nat) (exp : Int)
  deriving DecidableEq, Repr

/-- The longest prefix of `s` that is a `StrUnsignedDecimalLiteral`
(`Infinity`, `digits . digits? exponent?`, `. digits exponent?`,
`digits exponent?`), with what follows it. -/
def strUnsignedDecimalLiteral (s : JSString) : Option (Magnitude × JSString) :=
  match dropPrefix (utf16 "Infinity") s with
  | some rest => some (.infinity, rest)
  | none =>
    let ip := takeDigits s
    let body : Option (List Nat × List Nat × JSString) :=
      match ip.2 with
      | 46 :: t =>
        let fp := takeDigits t
        if ip.1 = [] ∧ fp.1 = [] then none else some (ip.1, fp.1, fp.2)
      | r => if ip.1 = [] then none else some (ip.1, [], r)
    match body with
    | none => none
    | some (i, f, r) =>
      let mant := digitsValue 10 (i ++ f)
      match exponentPart r with
      | some (e, r1) => some (.decimal mant (e - (f.length : Int)), r1)
      | none => some (.decimal mant (-(f.length : Int)), r)

/-- The longest prefix of `s` that is a `StrDecimalLiteral` (an optional sign
and an unsigned literal), as sign, magnitude and rest. -/
def strDecimalLiteral (s : JSString) : Option (Bool × Magnitude × JSString) :=
  match s with
  | 43 :: t => (strUnsignedDecimalLiteral t).map (fun r => (false, r.1, r.2))
  | 45 :: t => (strUnsignedDecimalLiteral t).map (fun r => (true, r.1, r.2))
  | _ => (strUnsignedDecimalLiteral s).map (fun r => (false, r.1, r.2))

/-- The Number value of a signed magnitude. -/
def magnitudeValue (neg : Bool) : Magnitude → JSNumber
  | .infinity => if neg then .negInf else .posInf
  | .decimal mant exp => numberValue neg mant exp

/-- The built-in `parseFloat` applied to the result of `getAttribute`, a
string or `null`: the argument is converted to a string (`null` becomes
`"null"`), leading white space is dropped, and the longest prefix that is a
decimal literal is converted; `NaN` when there is no such prefix. -/
def parseFloat (input : Option JSString) : JSNumber :=
  let inputString := match input with
    | none => utf16 "null"
    | some s => s
  let trimmed := inputString.dropWhile isStrWhiteSpaceChar
  match strDecimalLiteral trimmed with
  | none => .nan
  | some (neg, m, _) => magnitudeValue neg m

/-- All the digits of `s` in the given radix, or `none`. -/
def radixDigits (radix : Nat) : JSString → Option (List Nat)
  | [] => some []
  | u :: us =>
    match hexDigitValue u, radixDigits radix us with
    | some d, some ds => if d < radix then some (d :: ds) else none
    | _, _ => none

/-- The production `NonDecimalIntegerLiteral`: `0b`, `0o` or `0x` (either
case) followed by at least one digit of that radix and nothing else. -/
def nonDecimalIntegerLiteral (s : JSString) : Option Nat :=
  match s with
  | 48 :: m :: t =>
    let radix : Option Nat :=
      if m = 120 ∨ m = 88 then some 16
      else if m = 111 ∨ m = 79 then some 8
      else if m = 98 ∨ m = 66 then some 2
      else none
    match radix with
    | none => none
    | some r =>
      if t = [] then none
      else (radixDigits r t).map (digitsValue r)
  | _ => none

/-- The abstract operation `StringToNumber`, which the relational operators
apply to a string operand compared with a number: white space is trimmed at
both ends, the empty string is `0`, and the whole of what is left has to be a
numeric literal, else the result is `NaN`. -/
def stringToNumber (s : JSString) : JSNumber :=
  let t := ((s.dropWhile isStrWhiteSpaceChar).reverse.dropWhile isStrWhiteSpaceChar).reverse
  if t = [] then .finite 0
  else
    match nonDecimalIntegerLiteral t with
    | some n => numberValue false n 0
    | none =>
      match strDecimalLiteral t with
      | some (neg, m, []) => magnitudeValue neg m
      | _ => .nan

/-! ## Relational operators -/

/-- The values the script compares: the `value` of a slider is a string, the
result of `parseFloat` is a number. -/
inductive JSValue where
  | str (s : JSString)
  | num (n : JSNumber)
  deriving DecidableEq, Repr

/-- The abstract operation `ToNumber` on these values. -/
def toNumber : JSValue → JSNumber
  | .str s => stringToNumber s
  | .num n => n

/-- The abstract operation `IsLessThan`: two strings are compared as strings,
without any conversion; otherwise both operands are converted to numbers, and
the result is undefined (`none`) when one of them is `NaN`. -/
def isLessThan (x y : JSValue) : Option Bool :=
  match x, y with
  | .str px, .str py => some (stringLessThan px py)
  | _, _ =>
    if toNumber x = .nan ∨ toNumber y = .nan then none
    else some (JSNumber.lt (toNumber x) (toNumber y))

/-- The operator `x > y`: `IsLessThan(y, x)`, undefined counting as false. -/
def greaterThan (x y : JSValue) : Bool :=
  match isLessThan y x with
  | some r => r
  | none => false

/-- The operator `x >= y`: true when `IsLessThan(x, y)` is false. -/
def greaterThanOrEqual (x y : JSValue) : Bool :=
  match isLessThan x y with
  | some false => true
  | _ => false

/-- The operator `x <= y`: true when `IsLessThan(y, x)` is false. -/
def lessThanOrEqual (x y : JSValue) : Bool :=
  match isLessThan y x with
  | some false => true
  | _ => false

/-! ## The page -/

/-- An element of the document: the ordered token set behind `classList` and
the content attributes other than `class`, by lower-case name. -/
structure Element where
  classList : List JSString
  attributes : List (JSString × JSString)
  deriving DecidableEq, Repr

/-- First attribute of the given name in an attribute list. -/
def lookupAttribute (name : JSString) : List (JSString × JSString) → Option JSString
  | [] => none
  | a :: rest => if a.1 = name then some a.2 else lookupAttribute name rest

/-- The method `getAttribute`: the value of the first attribute of that name,
or `null`. -/
def Element.getAttribute (e : Element) (name : JSString) : Option JSString :=
  lookupAttribute name e.attributes

/-- The method `classList.add` with one token: appended unless present. -/
def Element.classListAdd (e : Element) (token : JSString) : Element :=
  { e with classList := if token ∈ e.classList then e.classList else e.classList ++ [token] }

/-- The method `classList.remove` with one token. -/
def Element.classListRemove (e : Element) (token : JSString) : Element :=
  { e with classList := e.classList.filter (fun t => decide (t ≠ token)) }

/-- The function objects the ready handler creates. -/
inductive Handler where
  | thrMinInput
  | thrMaxInput
  deriving DecidableEq, Repr

/-- The part of the document the script reads and writes: the `value` of the
three sliders, the `innerHTML` of the three labels, the `oninput` property of
the sliders, and the elements in document order. The identifiers of the
script resolve to the elements with these ids. -/
structure Page where
  thr_min_slider : JSString
  thr_max_slider : JSString
  thr_sig_slider : JSString
  thr_min_val : JSString
  thr_max_val : JSString
  thr_andxor : JSString
  thr_min_oninput : Option Handler
  thr_max_oninput : Option Handler
  thr_sig_oninput : Option Handler
  elements : List Element
  deriving DecidableEq, Repr

/-- Abnormal ends of a run: an exception of the script, or a loop of the model
that used up its fuel. -/
inductive JSError where
  | typeError
  | outOfFuel
  deriving DecidableEq, Repr

deriving instance DecidableEq for Except

/-- The property `length` of the live collection returned by
`getElementsByClassName`, read on the current document. -/
def collectionLength (c : JSString) : List Element → Nat
  | [] => 0
  | e :: es => if c ∈ e.classList then collectionLength c es + 1 else collectionLength c es

/-- Indexing `prs[i]` of the live collection: the position in the document of
the `i`-th element carrying the class, `none` (undefined) past the end. -/
def collectionItem (c : JSString) : List Element → Nat → Option Nat
  | [], _ => none
  | e :: es, i =>
    if c ∈ e.classList then
      match i with
      | 0 => some 0
      | j + 1 => (collectionItem c es j).map (· + 1)
    else (collectionItem c es i).map (· + 1)

/-- The loop `for (i = 0; i < prs.length; i++) body(prs[i])` over the live
collection of the elements of class `c`, started at index `i`. The body
receives the current page for the slider values it reads and returns the
element it has mutated. -/
def forEachOfClass (c : JSString) (body : Page → Element → Element) :
    Nat → Nat → Page → Except JSError Page
  | 0, _, _ => .error .outOfFuel
  | fuel + 1, i, p =>
    if i < collectionLength c p.elements then
      match collectionItem c p.elements i with
      | none => .error .typeError
      | some k =>
        match p.elements[k]? with
        | none => .error .typeError
        | some e =>
          forEachOfClass c body fuel (i + 1) { p with elements := p.elements.set k (body p e) }
    else .ok p

/-! ## The script -/

/-- Class name `d` of the rows under the threshold window. -/
def clsD : JSString := utf16 "d"
/-- Class name `pr` of the rows with a z-score. -/
def clsPr : JSString := utf16 "pr"
/-- Class name `invisible`. -/
def clsInvisible : JSString := utf16 "invisible"
/-- Class name `significant`. -/
def clsSignificant : JSString := utf16 "significant"
/-- Attribute name `value`. -/
def attrValue : JSString := utf16 "value"
/-- Attribute name `zscore`. -/
def attrZscore : JSString := utf16 "zscore"
/-- Label text `AND`. -/
def txtAND : JSString := utf16 "AND"
/-- Label text `XOR`. -/
def txtXOR : JSString := utf16 "XOR"

/-- The function `setThrText`. -/
def setThrText (p : Page) : Page :=
  { p with
    thr_min_val := p.thr_min_slider
    thr_max_val := p.thr_max_slider
    thr_andxor :=
      if greaterThan (.str p.thr_max_slider) (.str p.thr_min_slider) then txtAND else txtXOR }

/-- The branch of `setPrVisible` under the comment `// AND`, on `prs[i]`. -/
def setPrVisibleAnd (p : Page) (e : Element) : Element :=
  if greaterThanOrEqual (.num (parseFloat (e.getAttribute attrValue))) (.str p.thr_min_slider) &&
     lessThanOrEqual (.num (parseFloat (e.getAttribute attrValue))) (.str p.thr_max_slider) then
    e.classListRemove clsInvisible
  else
    e.classListAdd clsInvisible

/-- The branch of `setPrVisible` under the comment `// XOR`, on `prs[i]`. -/
def setPrVisibleXor (p : Page) (e : Element) : Element :=
  if greaterThanOrEqual (.num (parseFloat (e.getAttribute attrValue))) (.str p.thr_max_slider) &&
     lessThanOrEqual (.num (parseFloat (e.getAttribute attrValue))) (.str p.thr_min_slider) then
    e.classListAdd clsInvisible
  else
    e.classListRemove clsInvisible

/-- Body of the loop of `setPrVisible`, on the element `prs[i]`. -/
def setPrVisibleBody (p : Page) (e : Element) : Element :=
  if greaterThan (.str p.thr_max_slider) (.str p.thr_min_slider) then
    setPrVisibleAnd p e
  else
    setPrVisibleXor p e

/-- The function `setPrVisible`. The fuel is one more than the number of
elements of the document, which bounds the length of the collection. -/
def setPrVisible (p : Page) : Except JSError Page :=
  forEachOfClass clsD setPrVisibleBody (p.elements.length + 1) 0 p

/-- Body of the loop of `setPrSignificant`, on the element `prs[i]`. -/
def setPrSignificantBody (p : Page) (e : Element) : Element :=
  if greaterThanOrEqual (.num (parseFloat (e.getAttribute attrZscore))) (.str p.thr_sig_slider) then
    e.classListAdd clsSignificant
  else
    e.classListRemove clsSignificant

/-- The function `setPrSignificant`. -/
def setPrSignificant (p : Page) : Except JSError Page :=
  forEachOfClass clsPr setPrSignificantBody (p.elements.length + 1) 0 p

/-- Running a registered handler: both anonymous functions have the body
`setThrText(); setPrVisible();`. -/
def Handler.run : Handler → Page → Except JSError Page
  | .thrMinInput, p => setPrVisible (setThrText p)
  | .thrMaxInput, p => setPrVisible (setThrText p)

/-- The handler passed to `$(document).ready`, without the popover
initialisation: the two `oninput` assignments, then the three calls. -/
def ready (p : Page) : Except JSError Page :=
  let p1 := { p with thr_min_oninput := some .thrMinInput }
  let p2 := { p1 with thr_max_oninput := some .thrMaxInput }
  match setPrVisible (setThrText p2) with
  | .error err => .error err
  | .ok p3 => setPrSignificant p3

/-- The sliders of the page. -/
inductive Slider where
  | thrMin
  | thrMax
  | thrSig
  deriving DecidableEq, Repr

/-- An `input` event: the user moves a slider to a new value. -/
structure InputEvent where
  target : Slider
  value : JSString
  deriving DecidableEq, Repr

/-- Dispatch of an `input` event: the slider takes its new value, then the
function in its `oninput` property runs, if there is one. -/
def step (p : Page) (ev : InputEvent) : Except JSError Page :=
  match ev.target with
  | .thrMin =>
    match p.thr_min_oninput with
    | some h => h.run { p with thr_min_slider := ev.value }
    | none => .ok { p with thr_min_slider := ev.value }
  | .thrMax =>
    match p.thr_max_oninput with
    | some h => h.run { p with thr_max_slider := ev.value }
    | none => .ok { p with thr_max_slider := ev.value }
  | .thrSig =>
    match p.thr_sig_oninput with
    | some h => h.run { p with thr_sig_slider := ev.value }
    | none => .ok { p with thr_sig_slider := ev.value }

/-- A sequence of `input` events, each handled to completion before the next. -/
def run (p : Page) : List InputEvent → Except JSError Page
  | [] => .ok p
  | ev :: evs =>
    match step p ev with
    | .error err => .error err
    | .ok p1 => run p1 evs

/-! ## Specification-side definitions -/

/-- The document once the loop over the elements of class `c` has run to its
end from index `i`: the elements of class `c` other than the first `i` have
been through `f`. -/
def mapFrom (c : JSString) (f : Element → Element) : Nat → List Element → List Element
  | _, [] => []
  | i, e :: es =>
    if c ∈ e.classList then
      match i with
      | 0 => f e :: mapFrom c f 0 es
      | j + 1 => e :: mapFrom c f j es
    else e :: mapFrom c f i es

/-- A row is visible when it does not carry the class `invisible`. -/
def Element.visible (e : Element) : Prop := clsInvisible ∉ e.classList

/-- A row is marked when it carries the class `significant`. -/
def Element.significant (e : Element) : Prop := clsSignificant ∈ e.classList

/-- Two states of an element that agree on what `setPrSignificant` reads and
writes: the attributes, the class `pr` and the class `significant`. -/
def Element.sameMarking (e1 e : Element) : Prop :=
  (e1.significant ↔ e.significant) ∧ e1.attributes = e.attributes ∧
    (clsPr ∈ e1.classList ↔ clsPr ∈ e.classList)

/-- What one element goes through in `setPrVisible`. -/
def visibleUpdate (q : Page) (e : Element) : Element :=
  if clsD ∈ e.classList then setPrVisibleBody q e else e

instance (e : Element) : Decidable e.visible :=
  inferInstanceAs (Decidable (clsInvisible ∉ e.classList))

instance (e : Element) : Decidable e.significant :=
  inferInstanceAs (Decidable (clsSignificant ∈ e.classList))

/-! ## Sample pages -/

/-- A row of both classes `d` and `pr` with the given attributes and no other
class. -/
def sampleRow (value zscore : String) : Element :=
  { classList := [clsD, clsPr]
    attributes := [(attrValue, utf16 value), (attrZscore, utf16 zscore)] }

/-- A row of both classes without any attribute. -/
def bareRow : Element :=
  { classList := [clsD, clsPr], attributes := [] }

/-- A page as served, before the ready handler: the sliders at the given
values, empty labels, no handler, the given rows. -/
def samplePage (min max sig : String) (rows : List Element) : Page :=
  { thr_min_slider := utf16 min
    thr_max_slider := utf16 max
    thr_sig_slider := utf16 sig
    thr_min_val := []
    thr_max_val := []
    thr_andxor := []
    thr_min_oninput := none
    thr_max_oninput := none
    thr_sig_oninput := none
    elements := rows }

/-! ## Lemmas on the platform model -/

theorem stringLessThan_irrefl (a : JSString) : stringLessThan a a = false := by
  induction a with
  | nil => rfl
  | cons x xs ih => simp [stringLessThan, ih]

theorem stringLessThan_asymm (a b : JSString) (h : stringLessThan a b = true) :
    stringLessThan b a = false := by
  induction a generalizing b with
  | nil => cases b <;> simp [stringLessThan] at h ⊢
  | cons x xs ih =>
    cases b with
    | nil => simp [stringLessThan] at h
    | cons y ys =>
      simp only [stringLessThan] at h ⊢
      by_cases hxy : x < y
      · have : ¬ y < x := by omega
        simp [this, hxy]
      · by_cases hyx : y < x
        · simp [hxy, hyx] at h
        · simp [hxy, hyx] at h ⊢
          exact ih ys h

theorem stringLessThan_total (a b : JSString) (h : a ≠ b) :
    stringLessThan a b = true ∨ stringLessThan b a = true := by
  induction a generalizing b with
  | nil =>
    cases b with
    | nil => exact absurd rfl h
    | cons y ys => left; rfl
  | cons x xs ih =>
    cases b with
    | nil => right; rfl
    | cons y ys =>
      simp only [stringLessThan]
      by_cases hxy : x < y
      · left; simp [hxy]
      · by_cases hyx : y < x
        · right; simp [hyx]
        · have hEq : x = y := by omega
          subst hEq
          have hne : xs ≠ ys := fun hh => h (by rw [hh])
          simpa [hxy] using ih ys hne

theorem greaterThan_str (a b : JSString) :
    greaterThan (.str a) (.str b) = stringLessThan b a := by
  simp [greaterThan, isLessThan]

theorem greaterThanOrEqual_num_str (x : JSNumber) (s : JSString) :
    greaterThanOrEqual (.num x) (.str s) = JSNumber.le (stringToNumber s) x := by
  unfold greaterThanOrEqual isLessThan
  simp only [toNumber]
  cases x <;> cases hs : stringToNumber s <;> simp [JSNumber.le, JSNumber.lt]
  rename_i a b
  by_cases hab : a < b
  · simp [hab]
  · simp [hab]; omega

theorem lessThanOrEqual_num_str (x : JSNumber) (s : JSString) :
    lessThanOrEqual (.num x) (.str s) = JSNumber.le x (stringToNumber s) := by
  unfold lessThanOrEqual isLessThan
  simp only [toNumber]
  cases x <;> cases hs : stringToNumber s <;> simp [JSNumber.le, JSNumber.lt]
  rename_i a b
  by_cases hab : b < a
  · simp [hab]
  · simp [hab]; omega

theorem le_nan_left (x : JSNumber) : JSNumber.le .nan x = false := by
  cases x <;> rfl

theorem le_nan_right (x : JSNumber) : JSNumber.le x .nan = false := by
  cases x <;> rfl

/-! ## The loop over a live collection -/

theorem collectionLength_le (c : JSString) (es : List Element) :
    collectionLength c es ≤ es.length := by
  induction es with
  | nil => simp [collectionLength]
  | cons e es ih =>
    simp only [collectionLength, List.length_cons]
    split <;> omega

theorem collectionItem_isSome (c : JSString) (es : List Element) (i : Nat)
    (h : i < collectionLength c es) : ∃ k, collectionItem c es i = some k := by
  induction es generalizing i with
  | nil => simp [collectionLength] at h
  | cons e es ih =>
    simp only [collectionLength] at h
    simp only [collectionItem]
    by_cases hc : c ∈ e.classList
    · simp only [hc, if_true] at h ⊢
      cases i with
      | zero => exact ⟨0, rfl⟩
      | succ j =>
        obtain ⟨k, hk⟩ := ih j (by omega)
        exact ⟨k + 1, by simp [hk]⟩
    · simp only [hc, if_false] at h ⊢
      obtain ⟨k, hk⟩ := ih i h
      exact ⟨k + 1, by simp [hk]⟩

theorem mapFrom_of_length_le (c : JSString) (f : Element → Element) (es : List Element)
    (i : Nat) (h : collectionLength c es ≤ i) : mapFrom c f i es = es := by
  induction es generalizing i with
  | nil => rfl
  | cons e es ih =>
    simp only [collectionLength] at h
    simp only [mapFrom]
    by_cases hc : c ∈ e.classList
    · simp only [hc, if_true] at h ⊢
      cases i with
      | zero => omega
      | succ j => simp [ih j (by omega)]
    · simp only [hc, if_false] at h ⊢
      rw [ih i h]

theorem mapFrom_zero (c : JSString) (f : Element → Element) (es : List Element) :
    mapFrom c f 0 es = es.map (fun e => if c ∈ e.classList then f e else e) := by
  induction es with
  | nil => rfl
  | cons e es ih =>
    simp only [mapFrom, List.map_cons, ih]
    by_cases hc : c ∈ e.classList <;> simp [hc]

theorem collectionItem_step (c : JSString) (f : Element → Element)
    (hf : ∀ e, c ∈ (f e).classList ↔ c ∈ e.classList)
    (es : List Element) (i k : Nat) (h : collectionItem c es i = some k) :
    ∃ e, es[k]? = some e ∧
      mapFrom c f (i + 1) (es.set k (f e)) = mapFrom c f i es ∧
      collectionLength c (es.set k (f e)) = collectionLength c es := by
  induction es generalizing i k with
  | nil => simp [collectionItem] at h
  | cons e es ih =>
    simp only [collectionItem] at h
    by_cases hc : c ∈ e.classList
    · simp only [hc, if_true] at h
      cases i with
      | zero =>
        simp only [Option.some.injEq] at h
        subst h
        refine ⟨e, by simp, ?_, ?_⟩
        · simp [List.set, mapFrom, hc, (hf e).2 hc]
        · simp [List.set, collectionLength, hc, (hf e).2 hc]
      | succ j =>
        simp only [Option.map_eq_some'] at h
        obtain ⟨k1, hk1, rfl⟩ := h
        obtain ⟨e1, hget, hmap, hlen⟩ := ih j k1 hk1
        refine ⟨e1, by simpa using hget, ?_, ?_⟩
        · simp [List.set, mapFrom, hc, hmap]
        · simp [List.set, collectionLength, hc, hlen]
    · simp only [hc, if_false, Option.map_eq_some'] at h
      obtain ⟨k1, hk1, rfl⟩ := h
      obtain ⟨e1, hget, hmap, hlen⟩ := ih i k1 hk1
      refine ⟨e1, by simpa using hget, ?_, ?_⟩
      · simp [List.set, mapFrom, hc, hmap]
      · simp [List.set, collectionLength, hc, hlen]

/-- With enough fuel the loop ends normally, and the live collection makes no
difference: every element of class `c` has been through the body exactly once,
provided the body keeps the class `c` and reads nothing of the other elements. -/
theorem forEachOfClass_eq (c : JSString) (body : Page → Element → Element)
    (hkeep : ∀ p e, c ∈ (body p e).classList ↔ c ∈ e.classList)
    (hread : ∀ (p : Page) (es : List Element) (e : Element),
      body { p with elements := es } e = body p e)
    (fuel i : Nat) (p : Page) (hfuel : collectionLength c p.elements - i < fuel) :
    forEachOfClass c body fuel i p =
      .ok { p with elements := mapFrom c (body p) i p.elements } := by
  induction fuel generalizing i p with
  | zero => exact absurd hfuel (by omega)
  | succ fuel ih =>
    simp only [forEachOfClass]
    by_cases hi : i < collectionLength c p.elements
    · simp only [hi, if_true]
      obtain ⟨k, hk⟩ := collectionItem_isSome c p.elements i hi
      obtain ⟨e, hget, hmap, hlen⟩ :=
        collectionItem_step c (body p) (hkeep p) p.elements i k hk
      simp only [hk, hget]
      rw [ih (i + 1) _ (by simp only [hlen]; omega)]
      have hb : body { p with elements := p.elements.set k (body p e) } = body p :=
        funext (hread p _)
      simp only [hb, hmap]
    · simp only [hi, if_false]
      rw [mapFrom_of_length_le c (body p) p.elements i (by omega)]

/-! ## Lemmas on the script -/

theorem clsD_ne_clsInvisible : clsD ≠ clsInvisible := by decide

theorem clsPr_ne_clsSignificant : clsPr ≠ clsSignificant := by decide

theorem clsSignificant_ne_clsInvisible : clsSignificant ≠ clsInvisible := by decide

theorem txtAND_ne_txtXOR : txtAND ≠ txtXOR := by decide

theorem mem_classListAdd (e : Element) (tok t : JSString) :
    t ∈ (e.classListAdd tok).classList ↔ t = tok ∨ t ∈ e.classList := by
  unfold Element.classListAdd
  by_cases h : tok ∈ e.classList
  · simp only [h, if_true]
    constructor
    · intro ht; exact Or.inr ht
    · rintro (rfl | ht)
      · exact h
      · exact ht
  · simp only [h, if_false, List.mem_append, List.mem_singleton]
    tauto

theorem mem_classListRemove (e : Element) (tok t : JSString) :
    t ∈ (e.classListRemove tok).classList ↔ t ≠ tok ∧ t ∈ e.classList := by
  simp [Element.classListRemove, List.mem_filter, and_comm]

theorem classListAdd_idem (e : Element) (tok : JSString) :
    (e.classListAdd tok).classListAdd tok = e.classListAdd tok := by
  by_cases h : tok ∈ e.classList <;> simp [Element.classListAdd, h]

theorem classListRemove_idem (e : Element) (tok : JSString) :
    (e.classListRemove tok).classListRemove tok = e.classListRemove tok := by
  simp [Element.classListRemove, List.filter_filter]

theorem classListAdd_others (e : Element) (tok : JSString) :
    (e.classListAdd tok).classList.filter (fun t => decide (t ≠ tok)) =
      e.classList.filter (fun t => decide (t ≠ tok)) := by
  unfold Element.classListAdd
  by_cases h : tok ∈ e.classList
  · simp only [h, if_true]
  · simp [h, List.filter_append]

theorem classListRemove_others (e : Element) (tok : JSString) :
    (e.classListRemove tok).classList.filter (fun t => decide (t ≠ tok)) =
      e.classList.filter (fun t => decide (t ≠ tok)) := by
  simp [Element.classListRemove, List.filter_filter]

/-- The body of `setPrVisible` either adds or removes the class `invisible`. -/
theorem setPrVisibleBody_cases (p : Page) (e : Element) :
    setPrVisibleBody p e = e.classListAdd clsInvisible ∨
      setPrVisibleBody p e = e.classListRemove clsInvisible := by
  unfold setPrVisibleBody setPrVisibleAnd setPrVisibleXor
  split <;> split <;> simp

/-- The body of `setPrSignificant` either adds or removes the class `significant`. -/
theorem setPrSignificantBody_cases (p : Page) (e : Element) :
    setPrSignificantBody p e = e.classListAdd clsSignificant ∨
      setPrSignificantBody p e = e.classListRemove clsSignificant := by
  unfold setPrSignificantBody
  split <;> simp

theorem setPrVisibleBody_attributes (p : Page) (e : Element) :
    (setPrVisibleBody p e).attributes = e.attributes := by
  rcases setPrVisibleBody_cases p e with h | h <;> rw [h] <;> rfl

theorem setPrSignificantBody_attributes (p : Page) (e : Element) :
    (setPrSignificantBody p e).attributes = e.attributes := by
  rcases setPrSignificantBody_cases p e with h | h <;> rw [h] <;> rfl

theorem setPrVisibleBody_mem (p : Page) (e : Element) (t : JSString) (ht : t ≠ clsInvisible) :
    t ∈ (setPrVisibleBody p e).classList ↔ t ∈ e.classList := by
  rcases setPrVisibleBody_cases p e with h | h <;> rw [h]
  · simp [mem_classListAdd, ht]
  · simp [mem_classListRemove, ht]

theorem setPrSignificantBody_mem (p : Page) (e : Element) (t : JSString)
    (ht : t ≠ clsSignificant) :
    t ∈ (setPrSignificantBody p e).classList ↔ t ∈ e.classList := by
  rcases setPrSignificantBody_cases p e with h | h <;> rw [h]
  · simp [mem_classListAdd, ht]
  · simp [mem_classListRemove, ht]

/-- The document after `setPrVisible`. -/
theorem setPrVisible_eq (p : Page) :
    setPrVisible p = .ok { p with
      elements := p.elements.map
        (fun e => if clsD ∈ e.classList then setPrVisibleBody p e else e) } := by
  unfold setPrVisible
  rw [forEachOfClass_eq clsD setPrVisibleBody
    (fun p e => setPrVisibleBody_mem p e clsD clsD_ne_clsInvisible)
    (fun _ _ _ => rfl) _ 0 p
    (by have := collectionLength_le clsD p.elements; omega)]
  rw [mapFrom_zero]

/-- The document after `setPrSignificant`. -/
theorem setPrSignificant_eq (p : Page) :
    setPrSignificant p = .ok { p with
      elements := p.elements.map
        (fun e => if clsPr ∈ e.classList then setPrSignificantBody p e else e) } := by
  unfold setPrSignificant
  rw [forEachOfClass_eq clsPr setPrSignificantBody
    (fun p e => setPrSignificantBody_mem p e clsPr clsPr_ne_clsSignificant)
    (fun _ _ _ => rfl) _ 0 p
    (by have := collectionLength_le clsPr p.elements; omega)]
  rw [mapFrom_zero]

theorem setPrVisible_get (p : Page) (k : Nat) (e : Element)
    (he : p.elements[k]? = some e) :
    ∃ p1, setPrVisible p = .ok p1 ∧
      p1.elements[k]? = some (if clsD ∈ e.classList then setPrVisibleBody p e else e) := by
  rw [setPrVisible_eq]
  exact ⟨_, rfl, by simp [he]⟩

theorem setPrSignificant_get (p : Page) (k : Nat) (e : Element)
    (he : p.elements[k]? = some e) :
    ∃ p1, setPrSignificant p = .ok p1 ∧
      p1.elements[k]? =
        some (if clsPr ∈ e.classList then setPrSignificantBody p e else e) := by
  rw [setPrSignificant_eq]
  exact ⟨_, rfl, by simp [he]⟩

/-- Visibility after the `// AND` branch: inside the closed range of the two
slider values, each converted to a number. -/
theorem setPrVisibleAnd_visible (p : Page) (e : Element) :
    (setPrVisibleAnd p e).visible ↔
      (JSNumber.le (stringToNumber p.thr_min_slider) (parseFloat (e.getAttribute attrValue)) = true ∧
       JSNumber.le (parseFloat (e.getAttribute attrValue)) (stringToNumber p.thr_max_slider) = true) := by
  unfold setPrVisibleAnd Element.visible
  rw [greaterThanOrEqual_num_str, lessThanOrEqual_num_str]
  split
  · rename_i h
    simp only [Bool.and_eq_true] at h
    simp [mem_classListRemove, h]
  · rename_i h
    simp only [Bool.and_eq_true] at h
    simp [mem_classListAdd, h]

/-- Visibility after the `// XOR` branch: outside the closed range from the
max slider value to the min slider value. -/
theorem setPrVisibleXor_visible (p : Page) (e : Element) :
    (setPrVisibleXor p e).visible ↔
      ¬ (JSNumber.le (stringToNumber p.thr_max_slider) (parseFloat (e.getAttribute attrValue)) = true ∧
         JSNumber.le (parseFloat (e.getAttribute attrValue)) (stringToNumber p.thr_min_slider) = true) := by
  unfold setPrVisibleXor Element.visible
  rw [greaterThanOrEqual_num_str, lessThanOrEqual_num_str]
  split
  · rename_i h
    simp only [Bool.and_eq_true] at h
    simp [mem_classListAdd, h]
  · rename_i h
    simp only [Bool.and_eq_true] at h
    simp [mem_classListRemove, h]

/-- Marking after the body of `setPrSignificant`. -/
theorem setPrSignificantBody_significant (p : Page) (e : Element) :
    (setPrSignificantBody p e).significant ↔
      JSNumber.le (stringToNumber p.thr_sig_slider) (parseFloat (e.getAttribute attrZscore)) = true := by
  unfold setPrSignificantBody Element.significant
  rw [greaterThanOrEqual_num_str]
  split
  · rename_i h
    simp [mem_classListAdd, h]
  · rename_i h
    simp [mem_classListRemove, h]

/-- Which branch the body of `setPrVisible` takes: the string order of the two
slider values. -/
theorem setPrVisibleBody_of_lt (p : Page) (e : Element)
    (h : stringLessThan p.thr_min_slider p.thr_max_slider = true) :
    setPrVisibleBody p e = setPrVisibleAnd p e := by
  simp [setPrVisibleBody, greaterThan_str, h]

theorem setPrVisibleBody_of_not_lt (p : Page) (e : Element)
    (h : stringLessThan p.thr_min_slider p.thr_max_slider = false) :
    setPrVisibleBody p e = setPrVisibleXor p e := by
  simp [setPrVisibleBody, greaterThan_str, h]

theorem getAttribute_classListAdd (e : Element) (tok name : JSString) :
    (e.classListAdd tok).getAttribute name = e.getAttribute name := rfl

theorem getAttribute_classListRemove (e : Element) (tok name : JSString) :
    (e.classListRemove tok).getAttribute name = e.getAttribute name := rfl

theorem setPrVisibleAnd_idem (p : Page) (e : Element) :
    setPrVisibleAnd p (setPrVisibleAnd p e) = setPrVisibleAnd p e := by
  unfold setPrVisibleAnd
  by_cases h :
      (greaterThanOrEqual (.num (parseFloat (e.getAttribute attrValue))) (.str p.thr_min_slider) &&
        lessThanOrEqual (.num (parseFloat (e.getAttribute attrValue))) (.str p.thr_max_slider))
        = true
  · rw [if_pos h]
    simp only [getAttribute_classListRemove]
    rw [if_pos h, classListRemove_idem]
  · rw [if_neg h]
    simp only [getAttribute_classListAdd]
    rw [if_neg h, classListAdd_idem]

theorem setPrVisibleXor_idem (p : Page) (e : Element) :
    setPrVisibleXor p (setPrVisibleXor p e) = setPrVisibleXor p e := by
  unfold setPrVisibleXor
  by_cases h :
      (greaterThanOrEqual (.num (parseFloat (e.getAttribute attrValue))) (.str p.thr_max_slider) &&
        lessThanOrEqual (.num (parseFloat (e.getAttribute attrValue))) (.str p.thr_min_slider))
        = true
  · rw [if_pos h]
    simp only [getAttribute_classListAdd]
    rw [if_pos h, classListAdd_idem]
  · rw [if_neg h]
    simp only [getAttribute_classListRemove]
    rw [if_neg h, classListRemove_idem]

theorem setPrVisibleBody_idem (p : Page) (e : Element) :
    setPrVisibleBody p (setPrVisibleBody p e) = setPrVisibleBody p e := by
  unfold setPrVisibleBody
  split
  · exact setPrVisibleAnd_idem p e
  · exact setPrVisibleXor_idem p e

theorem setPrSignificantBody_idem (p : Page) (e : Element) :
    setPrSignificantBody p (setPrSignificantBody p e) = setPrSignificantBody p e := by
  unfold setPrSignificantBody
  by_cases h :
      greaterThanOrEqual (.num (parseFloat (e.getAttribute attrZscore))) (.str p.thr_sig_slider)
        = true
  · rw [if_pos h]
    simp only [getAttribute_classListAdd]
    rw [if_pos h, classListAdd_idem]
  · rw [if_neg h]
    simp only [getAttribute_classListRemove]
    rw [if_neg h, classListRemove_idem]

/-- Running `setPrVisible` on its own result changes nothing. -/
theorem setPrVisible_idem (p p1 : Page) (h : setPrVisible p = .ok p1) :
    setPrVisible p1 = .ok p1 := by
  rw [setPrVisible_eq] at h
  cases h
  rw [setPrVisible_eq]
  simp only [List.map_map]
  congr 2
  apply List.map_congr_left
  intro e _
  show (if clsD ∈ (if clsD ∈ e.classList then setPrVisibleBody p e else e).classList
      then setPrVisibleBody _ (if clsD ∈ e.classList then setPrVisibleBody p e else e)
      else (if clsD ∈ e.classList then setPrVisibleBody p e else e)) = _
  by_cases hd : clsD ∈ e.classList
  · simp only [hd, if_true]
    rw [if_pos ((setPrVisibleBody_mem p e clsD clsD_ne_clsInvisible).2 hd)]
    exact setPrVisibleBody_idem p e
  · simp only [hd, if_false]

/-- Running `setPrSignificant` on its own result changes nothing. -/
theorem setPrSignificant_idem (p p1 : Page) (h : setPrSignificant p = .ok p1) :
    setPrSignificant p1 = .ok p1 := by
  rw [setPrSignificant_eq] at h
  cases h
  rw [setPrSignificant_eq]
  simp only [List.map_map]
  congr 2
  apply List.map_congr_left
  intro e _
  show (if clsPr ∈ (if clsPr ∈ e.classList then setPrSignificantBody p e else e).classList
      then setPrSignificantBody _ (if clsPr ∈ e.classList then setPrSignificantBody p e else e)
      else (if clsPr ∈ e.classList then setPrSignificantBody p e else e)) = _
  by_cases hd : clsPr ∈ e.classList
  · simp only [hd, if_true]
    rw [if_pos ((setPrSignificantBody_mem p e clsPr clsPr_ne_clsSignificant).2 hd)]
    exact setPrSignificantBody_idem p e
  · simp only [hd, if_false]

/-- When the max slider value is greater than the min slider value as a
string, a row of class `d` ends visible exactly when its value is in the closed
range of the two slider values as numbers. -/
theorem setPrVisible_of_string_gt (p : Page) (k : Nat) (e : Element)
    (he : p.elements[k]? = some e) (hd : clsD ∈ e.classList)
    (hgt : greaterThan (.str p.thr_max_slider) (.str p.thr_min_slider) = true) :
    ∃ p1 e1, setPrVisible p = .ok p1 ∧ p1.elements[k]? = some e1 ∧
      (e1.visible ↔
        (JSNumber.le (toNumber (.str p.thr_min_slider))
            (parseFloat (e.getAttribute attrValue)) = true ∧
          JSNumber.le (parseFloat (e.getAttribute attrValue))
            (toNumber (.str p.thr_max_slider)) = true)) := by
  obtain ⟨p1, hp1, hk⟩ := setPrVisible_get p k e he
  rw [if_pos hd] at hk
  rw [greaterThan_str] at hgt
  refine ⟨p1, _, hp1, hk, ?_⟩
  rw [setPrVisibleBody_of_lt p e hgt, setPrVisibleAnd_visible]
  rfl

/-- When the max slider value is not greater than the min slider value as a
string, a row of class `d` ends visible exactly when its value is outside the
closed range from the max to the min slider value as numbers. -/
theorem setPrVisible_of_not_string_gt (p : Page) (k : Nat) (e : Element)
    (he : p.elements[k]? = some e) (hd : clsD ∈ e.classList)
    (hgt : greaterThan (.str p.thr_max_slider) (.str p.thr_min_slider) = false) :
    ∃ p1 e1, setPrVisible p = .ok p1 ∧ p1.elements[k]? = some e1 ∧
      (e1.visible ↔
        ¬ (JSNumber.le (toNumber (.str p.thr_max_slider))
            (parseFloat (e.getAttribute attrValue)) = true ∧
          JSNumber.le (parseFloat (e.getAttribute attrValue))
            (toNumber (.str p.thr_min_slider)) = true)) := by
  obtain ⟨p1, hp1, hk⟩ := setPrVisible_get p k e he
  rw [if_pos hd] at hk
  rw [greaterThan_str] at hgt
  refine ⟨p1, _, hp1, hk, ?_⟩
  rw [setPrVisibleBody_of_not_lt p e hgt, setPrVisibleXor_visible]
  rfl

/-! ## Properties of the script -/

/-- C1, at the failing input min = "9", max = "10" and one row of class `d`
with value "5": the two slider values are the numbers 9 and 10, so max > min
numerically, and 5 is below the range from 9 to 10; yet `setPrVisible` returns
the page unchanged, the row still without the class `invisible`. The two
strings are compared as strings, "10" sorts before "9", and the `// XOR`
branch runs. -/
theorem setPrVisible_and_numeric_fails :
    toNumber (.str (utf16 "9")) = JSNumber.ofInt 9 ∧
    toNumber (.str (utf16 "10")) = JSNumber.ofInt 10 ∧
    JSNumber.lt (JSNumber.ofInt 9) (JSNumber.ofInt 10) = true ∧
    parseFloat ((sampleRow "5" "0").getAttribute attrValue) = JSNumber.ofInt 5 ∧
    JSNumber.le (JSNumber.ofInt 9) (JSNumber.ofInt 5) = false ∧
    greaterThan (.str (utf16 "10")) (.str (utf16 "9")) = false ∧
    (sampleRow "5" "0").visible ∧
    setPrVisible (samplePage "9" "10" "0" [sampleRow "5" "0"]) =
      .ok (samplePage "9" "10" "0" [sampleRow "5" "0"]) := by
  decide

/-- C2, at the failing input min = "10", max = "9" and one row of class `d`
with value "5": max <= min numerically and 5 is outside the range from 9 to
10, so the row should stay visible; yet `setPrVisible` adds the class
`invisible`. As strings "9" sorts after "10", and the `// AND` branch runs
with the empty range from 10 to 9. -/
theorem setPrVisible_xor_numeric_fails :
    toNumber (.str (utf16 "10")) = JSNumber.ofInt 10 ∧
    toNumber (.str (utf16 "9")) = JSNumber.ofInt 9 ∧
    JSNumber.le (JSNumber.ofInt 9) (JSNumber.ofInt 10) = true ∧
    parseFloat ((sampleRow "5" "0").getAttribute attrValue) = JSNumber.ofInt 5 ∧
    JSNumber.le (JSNumber.ofInt 9) (JSNumber.ofInt 5) = false ∧
    greaterThan (.str (utf16 "9")) (.str (utf16 "10")) = true ∧
    setPrVisible (samplePage "10" "9" "0" [sampleRow "5" "0"]) =
      .ok (samplePage "10" "9" "0"
        [{ sampleRow "5" "0" with classList := [clsD, clsPr, clsInvisible] }]) := by
  decide

/-- C3, at the failing input min = "9", max = "10": max > min numerically, yet
`setThrText` writes "XOR" into `thr_andxor`, the two values being compared as
strings. -/
theorem setThrText_numeric_fails :
    toNumber (.str (utf16 "9")) = JSNumber.ofInt 9 ∧
    toNumber (.str (utf16 "10")) = JSNumber.ofInt 10 ∧
    JSNumber.lt (JSNumber.ofInt 9) (JSNumber.ofInt 10) = true ∧
    (setThrText (samplePage "9" "10" "0" [])).thr_andxor = utf16 "XOR" := by
  decide

/-- C4: after `setPrSignificant`, an element of class `pr` whose `zscore`
parses to `s` carries the class `significant` exactly when `t ≤ s`, where `t`
is the significance slider value as a number; the class list before the call
is arbitrary, and `s = t` is marked. (`JSNumber.le` is false as soon as one
side is `NaN`.) -/
theorem setPrSignificant_marks (p : Page) (k : Nat) (e : Element) (s t : JSNumber)
    (he : p.elements[k]? = some e) (hpr : clsPr ∈ e.classList)
    (hs : parseFloat (e.getAttribute attrZscore) = s)
    (ht : toNumber (.str p.thr_sig_slider) = t) :
    ∃ p1 e1, setPrSignificant p = .ok p1 ∧ p1.elements[k]? = some e1 ∧
      (e1.significant ↔ JSNumber.le t s = true) := by
  obtain ⟨p1, hp1, hk⟩ := setPrSignificant_get p k e he
  rw [if_pos hpr] at hk
  refine ⟨p1, _, hp1, hk, ?_⟩
  rw [setPrSignificantBody_significant, ← hs, ← ht]
  rfl

/-- C4 at the boundary: threshold "2.0" and a row of z-score "2.0". -/
theorem setPrSignificant_marks_witness :
    ∃ p1 e1, setPrSignificant (samplePage "0" "1" "2.0" [sampleRow "0.5" "2.0"]) = .ok p1 ∧
      p1.elements[0]? = some e1 ∧
      (e1.significant ↔ JSNumber.le (JSNumber.ofInt 2) (JSNumber.ofInt 2) = true) :=
  setPrSignificant_marks (samplePage "0" "1" "2.0" [sampleRow "0.5" "2.0"]) 0
    (sampleRow "0.5" "2.0") (JSNumber.ofInt 2) (JSNumber.ofInt 2)
    (by decide) (by decide) (by decide) (by decide)

/-- C5: `setPrVisible` run twice gives the page it gives run once, and so does
`setPrSignificant`, on every page. -/
theorem setPrVisible_setPrSignificant_idempotent (p : Page) :
    (∃ p1, setPrVisible p = .ok p1 ∧ setPrVisible p1 = .ok p1) ∧
    (∃ p1, setPrSignificant p = .ok p1 ∧ setPrSignificant p1 = .ok p1) :=
  ⟨⟨_, setPrVisible_eq p, setPrVisible_idem p _ (setPrVisible_eq p)⟩,
   ⟨_, setPrSignificant_eq p, setPrSignificant_idem p _ (setPrSignificant_eq p)⟩⟩

/-- C6: `setPrVisible` ends normally and leaves the slider values, the labels
and the handlers as they were; the document keeps its elements in place, each
with the same attributes and the same classes other than `invisible`, in the
same order; an element without class `d` is unchanged. -/
theorem setPrVisible_frame (p : Page) :
    ∃ p1, setPrVisible p = .ok p1 ∧
      p1.thr_min_slider = p.thr_min_slider ∧ p1.thr_max_slider = p.thr_max_slider ∧
      p1.thr_sig_slider = p.thr_sig_slider ∧
      p1.thr_min_val = p.thr_min_val ∧ p1.thr_max_val = p.thr_max_val ∧
      p1.thr_andxor = p.thr_andxor ∧
      p1.thr_min_oninput = p.thr_min_oninput ∧ p1.thr_max_oninput = p.thr_max_oninput ∧
      p1.thr_sig_oninput = p.thr_sig_oninput ∧
      p1.elements.length = p.elements.length ∧
      ∀ (k : Nat) (e : Element), p.elements[k]? = some e →
        ∃ e1 : Element, p1.elements[k]? = some e1 ∧
          e1.attributes = e.attributes ∧
          (∀ c, c ≠ clsInvisible → (c ∈ e1.classList ↔ c ∈ e.classList)) ∧
          e1.classList.filter (fun c => decide (c ≠ clsInvisible)) =
            e.classList.filter (fun c => decide (c ≠ clsInvisible)) ∧
          (clsD ∉ e.classList → e1 = e) := by
  refine ⟨_, setPrVisible_eq p, rfl, rfl, rfl, rfl, rfl, rfl, rfl, rfl, rfl, by simp, ?_⟩
  intro k e he
  refine ⟨if clsD ∈ e.classList then setPrVisibleBody p e else e, by simp [he], ?_⟩
  by_cases hd : clsD ∈ e.classList
  · simp only [hd, if_true, not_true_eq_false, false_implies, and_true]
    refine ⟨setPrVisibleBody_attributes p e, fun c hc => setPrVisibleBody_mem p e c hc, ?_⟩
    rcases setPrVisibleBody_cases p e with h | h <;> rw [h]
    · exact classListAdd_others e clsInvisible
    · exact classListRemove_others e clsInvisible
  · simp [hd]

theorem setThrText_andxor_and (p : Page) :
    (setThrText p).thr_andxor = txtAND ↔
      stringLessThan p.thr_min_slider p.thr_max_slider = true := by
  simp only [setThrText, greaterThan_str]
  by_cases h : stringLessThan p.thr_min_slider p.thr_max_slider = true
  · simp [h]
  · simp [h, Ne.symm txtAND_ne_txtXOR]

theorem setThrText_andxor_xor (p : Page) :
    (setThrText p).thr_andxor = txtXOR ↔
      stringLessThan p.thr_min_slider p.thr_max_slider = false := by
  simp only [setThrText, greaterThan_str]
  by_cases h : stringLessThan p.thr_min_slider p.thr_max_slider = true
  · simp [h, txtAND_ne_txtXOR]
  · simp [h]

/-- A `value` that does not parse to a number makes both comparisons false
without any exception: `setPrVisible` ends normally and the row of class `d`
carries `invisible` when the label written by `setThrText` is "AND" and does
not when it is "XOR"; likewise `setPrSignificant` ends normally and a row of
class `pr` whose `zscore` does not parse ends without `significant`. The label
follows the string order of the two slider values, not their numeric order. -/
theorem nonNumeric_attributes_by_label (p : Page) (k : Nat) (e : Element)
    (he : p.elements[k]? = some e) :
    (∀ s, greaterThanOrEqual (.num .nan) (.str s) = false ∧
      lessThanOrEqual (.num .nan) (.str s) = false) ∧
    (clsD ∈ e.classList → parseFloat (e.getAttribute attrValue) = .nan →
      ∃ p1 e1, setPrVisible p = .ok p1 ∧ p1.elements[k]? = some e1 ∧
        ((setThrText p).thr_andxor = txtAND → ¬ e1.visible) ∧
        ((setThrText p).thr_andxor = txtXOR → e1.visible)) ∧
    (clsPr ∈ e.classList → parseFloat (e.getAttribute attrZscore) = .nan →
      ∃ p1 e1, setPrSignificant p = .ok p1 ∧ p1.elements[k]? = some e1 ∧
        ¬ e1.significant) := by
  refine ⟨fun s => ?_, fun hd hnan => ?_, fun hpr hnan => ?_⟩
  · rw [greaterThanOrEqual_num_str, lessThanOrEqual_num_str, le_nan_left, le_nan_right]
    exact ⟨rfl, rfl⟩
  · obtain ⟨p1, hp1, hk⟩ := setPrVisible_get p k e he
    rw [if_pos hd] at hk
    refine ⟨p1, _, hp1, hk, fun hand => ?_, fun hxor => ?_⟩
    · rw [setPrVisibleBody_of_lt p e ((setThrText_andxor_and p).1 hand),
        setPrVisibleAnd_visible, hnan, le_nan_left, le_nan_right]
      simp
    · rw [setPrVisibleBody_of_not_lt p e ((setThrText_andxor_xor p).1 hxor),
        setPrVisibleXor_visible, hnan, le_nan_left, le_nan_right]
      simp
  · obtain ⟨p1, hp1, hk⟩ := setPrSignificant_get p k e he
    rw [if_pos hpr] at hk
    refine ⟨p1, _, hp1, hk, ?_⟩
    rw [setPrSignificantBody_significant, hnan, le_nan_right]
    simp

/-- C7, at the failing input min = "9", max = "10" and one row of classes `d`
and `pr` with `value="n/a"` and `zscore="n/a"`: neither attribute parses to a
number, and max > min numerically, which is AND mode, so the row should end
with the class `invisible`; yet `setPrVisible` ends normally with the row
still without it, since "10" sorts before "9" as a string and the `// XOR`
branch runs. With the two slider values exchanged, max <= min numerically,
which is XOR mode, and the row ends with `invisible` instead of without it.
`setPrSignificant` ends normally on the same page and leaves the row without
`significant`, as the claim says. -/
theorem nonNumeric_numeric_mode_fails :
    parseFloat ((sampleRow "n/a" "n/a").getAttribute attrValue) = .nan ∧
    parseFloat ((sampleRow "n/a" "n/a").getAttribute attrZscore) = .nan ∧
    toNumber (.str (utf16 "9")) = JSNumber.ofInt 9 ∧
    toNumber (.str (utf16 "10")) = JSNumber.ofInt 10 ∧
    JSNumber.lt (JSNumber.ofInt 9) (JSNumber.ofInt 10) = true ∧
    (sampleRow "n/a" "n/a").visible ∧
    setPrVisible (samplePage "9" "10" "2.0" [sampleRow "n/a" "n/a"]) =
      .ok (samplePage "9" "10" "2.0" [sampleRow "n/a" "n/a"]) ∧
    setPrVisible (samplePage "10" "9" "2.0" [sampleRow "n/a" "n/a"]) =
      .ok (samplePage "10" "9" "2.0"
        [{ sampleRow "n/a" "n/a" with classList := [clsD, clsPr, clsInvisible] }]) ∧
    setPrSignificant (samplePage "9" "10" "2.0" [sampleRow "n/a" "n/a"]) =
      .ok (samplePage "9" "10" "2.0" [sampleRow "n/a" "n/a"]) := by
  decide

/-- C9: the label written by `setThrText` is "AND" or "XOR"; it is "AND"
exactly when `setPrVisible`, on any document with these slider values, puts
every row of class `d` through the `// AND` branch, and "XOR" exactly when it
puts every such row through the `// XOR` branch. -/
theorem label_agrees_with_branch (p : Page) :
    ((setThrText p).thr_andxor = txtAND ∨ (setThrText p).thr_andxor = txtXOR) ∧
    ((setThrText p).thr_andxor = txtAND ↔
      ∀ es : List Element, setPrVisible { p with elements := es } =
        .ok { p with
          elements := es.map (fun e => if clsD ∈ e.classList then setPrVisibleAnd p e else e) }) ∧
    ((setThrText p).thr_andxor = txtXOR ↔
      ∀ es : List Element, setPrVisible { p with elements := es } =
        .ok { p with
          elements := es.map (fun e => if clsD ∈ e.classList then setPrVisibleXor p e else e) }) := by
  have hAnd : ∀ e, setPrVisibleAnd p bareRow = e → e.classList = [clsD, clsPr, clsInvisible] := by
    intro e he
    rw [← he]
    unfold setPrVisibleAnd
    rw [greaterThanOrEqual_num_str, lessThanOrEqual_num_str]
    have : parseFloat (bareRow.getAttribute attrValue) = .nan := by decide
    rw [this, le_nan_left, le_nan_right]
    decide
  have hXor : ∀ e, setPrVisibleXor p bareRow = e → e.classList = [clsD, clsPr] := by
    intro e he
    rw [← he]
    unfold setPrVisibleXor
    rw [greaterThanOrEqual_num_str, lessThanOrEqual_num_str]
    have : parseFloat (bareRow.getAttribute attrValue) = .nan := by decide
    rw [this, le_nan_left, le_nan_right]
    decide
  have hne : setPrVisibleAnd p bareRow ≠ setPrVisibleXor p bareRow := by
    intro h
    have h1 := hAnd _ h
    have h2 := hXor _ rfl
    rw [h2] at h1
    exact absurd h1 (by decide)
  by_cases hlt : stringLessThan p.thr_min_slider p.thr_max_slider = true
  · have hlab : (setThrText p).thr_andxor = txtAND := (setThrText_andxor_and p).2 hlt
    have hall : ∀ es : List Element, setPrVisible { p with elements := es } =
        .ok { p with
          elements := es.map (fun e => if clsD ∈ e.classList then setPrVisibleAnd p e else e) } := by
      intro es
      rw [setPrVisible_eq]
      congr 2
      apply List.map_congr_left
      intro e _
      by_cases hd : clsD ∈ e.classList
      · simp only [hd, if_true]
        exact setPrVisibleBody_of_lt _ e hlt
      · simp only [hd, if_false]
    refine ⟨Or.inl hlab, ⟨fun _ => hall, fun _ => hlab⟩, ⟨fun hx => ?_, fun hx => ?_⟩⟩
    · rw [hlab] at hx
      exact absurd hx txtAND_ne_txtXOR
    · have h1 := hall [bareRow]
      rw [hx [bareRow]] at h1
      simp only [List.map_cons, List.map_nil, Except.ok.injEq, Page.mk.injEq, true_and,
        List.cons.injEq, and_true] at h1
      have hd : clsD ∈ bareRow.classList := by decide
      simp only [hd, if_true] at h1
      exact absurd h1.symm hne
  · have hlt2 : stringLessThan p.thr_min_slider p.thr_max_slider = false := by
      simpa using hlt
    have hlab : (setThrText p).thr_andxor = txtXOR := (setThrText_andxor_xor p).2 hlt2
    have hall : ∀ es : List Element, setPrVisible { p with elements := es } =
        .ok { p with
          elements := es.map (fun e => if clsD ∈ e.classList then setPrVisibleXor p e else e) } := by
      intro es
      rw [setPrVisible_eq]
      congr 2
      apply List.map_congr_left
      intro e _
      by_cases hd : clsD ∈ e.classList
      · simp only [hd, if_true]
        exact setPrVisibleBody_of_not_lt _ e hlt2
      · simp only [hd, if_false]
    refine ⟨Or.inr hlab, ⟨fun ha => ?_, fun ha => ?_⟩, ⟨fun _ => hall, fun _ => hlab⟩⟩
    · rw [hlab] at ha
      exact absurd ha.symm txtAND_ne_txtXOR
    · have h1 := hall [bareRow]
      rw [ha [bareRow]] at h1
      simp only [List.map_cons, List.map_nil, Except.ok.injEq, Page.mk.injEq, true_and,
        List.cons.injEq, and_true] at h1
      have hd : clsD ∈ bareRow.classList := by decide
      simp only [hd, if_true] at h1
      exact absurd h1 hne

/-- C10: for two slider value strings `a` and `b` and a row of class `d`, the
runs of `setPrVisible` with (min, max) = (a, b) and with (min, max) = (b, a)
both end normally; when `a` and `b` differ the row is visible after the one
exactly when it is hidden after the other, and when they are the same string
the two runs give the same page. -/
theorem swap_sliders_complements (p : Page) (a b : JSString) (k : Nat) (e : Element)
    (he : p.elements[k]? = some e) (hd : clsD ∈ e.classList) :
    ∃ p1 p2 e1 e2,
      setPrVisible { p with thr_min_slider := a, thr_max_slider := b } = .ok p1 ∧
      setPrVisible { p with thr_min_slider := b, thr_max_slider := a } = .ok p2 ∧
      p1.elements[k]? = some e1 ∧ p2.elements[k]? = some e2 ∧
      (a ≠ b → (e1.visible ↔ ¬ e2.visible)) ∧
      (a = b → p1 = p2) := by
  obtain ⟨p1, hp1, hk1⟩ :=
    setPrVisible_get { p with thr_min_slider := a, thr_max_slider := b } k e he
  obtain ⟨p2, hp2, hk2⟩ :=
    setPrVisible_get { p with thr_min_slider := b, thr_max_slider := a } k e he
  rw [if_pos hd] at hk1 hk2
  refine ⟨p1, p2, _, _, hp1, hp2, hk1, hk2, fun hab => ?_, fun hab => ?_⟩
  · rcases stringLessThan_total a b hab with h | h
    · rw [setPrVisibleBody_of_lt _ e h,
        setPrVisibleBody_of_not_lt _ e (stringLessThan_asymm a b h),
        setPrVisibleAnd_visible, setPrVisibleXor_visible]
      exact not_not.symm
    · rw [setPrVisibleBody_of_not_lt _ e (stringLessThan_asymm b a h),
        setPrVisibleBody_of_lt _ e h,
        setPrVisibleXor_visible, setPrVisibleAnd_visible]
  · subst hab
    rw [hp1] at hp2
    cases hp2
    rfl

/-- C10 with the sliders at "0.2" and "0.8" and a row of value "0.5". -/
theorem swap_sliders_complements_witness :
    ∃ p1 p2 e1 e2,
      setPrVisible { samplePage "0" "0" "2.0" [sampleRow "0.5" "0"] with
        thr_min_slider := utf16 "0.2", thr_max_slider := utf16 "0.8" } = .ok p1 ∧
      setPrVisible { samplePage "0" "0" "2.0" [sampleRow "0.5" "0"] with
        thr_min_slider := utf16 "0.8", thr_max_slider := utf16 "0.2" } = .ok p2 ∧
      p1.elements[0]? = some e1 ∧ p2.elements[0]? = some e2 ∧
      (utf16 "0.2" ≠ utf16 "0.8" → (e1.visible ↔ ¬ e2.visible)) ∧
      (utf16 "0.2" = utf16 "0.8" → p1 = p2) :=
  swap_sliders_complements (samplePage "0" "0" "2.0" [sampleRow "0.5" "0"])
    (utf16 "0.2") (utf16 "0.8") 0 (sampleRow "0.5" "0") (by decide) (by decide)

/-! ### The ready handler and the input events -/

theorem clsPr_ne_clsInvisible : clsPr ≠ clsInvisible := by decide

theorem Handler.run_eq (h : Handler) (q : Page) : h.run q = setPrVisible (setThrText q) := by
  cases h <;> rfl

theorem sameMarking_refl (e : Element) : e.sameMarking e :=
  ⟨Iff.rfl, rfl, Iff.rfl⟩

theorem sameMarking_trans (e2 e1 e : Element) (h21 : e2.sameMarking e1)
    (h10 : e1.sameMarking e) : e2.sameMarking e :=
  ⟨h21.1.trans h10.1, h21.2.1.trans h10.2.1, h21.2.2.trans h10.2.2⟩

theorem visibleUpdate_sameMarking (q : Page) (e : Element) :
    (visibleUpdate q e).sameMarking e := by
  unfold visibleUpdate
  by_cases hd : clsD ∈ e.classList
  · simp only [hd, if_true]
    exact ⟨setPrVisibleBody_mem q e clsSignificant clsSignificant_ne_clsInvisible,
      setPrVisibleBody_attributes q e,
      setPrVisibleBody_mem q e clsPr clsPr_ne_clsInvisible⟩
  · simp only [hd, if_false]
    exact sameMarking_refl e

/-- After the two calls of a handler, running them again changes nothing. -/
theorem setThrText_setPrVisible_fixed (q q1 : Page)
    (h : setPrVisible (setThrText q) = .ok q1) :
    setPrVisible (setThrText q1) = .ok q1 := by
  have hfix : setThrText q1 = q1 := by
    rw [setPrVisible_eq] at h
    cases h
    rfl
  rw [hfix]
  exact setPrVisible_idem (setThrText q) q1 h

/-- One event: the run ends normally, the handlers stay, and every element
keeps its attributes, its class `pr` and its class `significant`. -/
theorem step_sameMarking (q : Page) (ev : InputEvent) :
    ∃ q1 f, step q ev = .ok q1 ∧
      q1.thr_min_oninput = q.thr_min_oninput ∧ q1.thr_max_oninput = q.thr_max_oninput ∧
      q1.thr_sig_oninput = q.thr_sig_oninput ∧
      q1.elements = q.elements.map f ∧ ∀ e, (f e).sameMarking e := by
  unfold step
  cases ev.target with
  | thrMin =>
    cases q.thr_min_oninput with
    | none => exact ⟨_, id, rfl, rfl, rfl, rfl, by simp, sameMarking_refl⟩
    | some h =>
      simp only [Handler.run_eq, setPrVisible_eq]
      exact ⟨_, _, rfl, rfl, rfl, rfl, rfl, visibleUpdate_sameMarking _⟩
  | thrMax =>
    cases q.thr_max_oninput with
    | none => exact ⟨_, id, rfl, rfl, rfl, rfl, by simp, sameMarking_refl⟩
    | some h =>
      simp only [Handler.run_eq, setPrVisible_eq]
      exact ⟨_, _, rfl, rfl, rfl, rfl, rfl, visibleUpdate_sameMarking _⟩
  | thrSig =>
    cases q.thr_sig_oninput with
    | none => exact ⟨_, id, rfl, rfl, rfl, rfl, by simp, sameMarking_refl⟩
    | some h =>
      simp only [Handler.run_eq, setPrVisible_eq]
      exact ⟨_, _, rfl, rfl, rfl, rfl, rfl, visibleUpdate_sameMarking _⟩

/-- A sequence of events: as for one event. -/
theorem run_sameMarking (q : Page) (evs : List InputEvent) :
    ∃ q1 f, run q evs = .ok q1 ∧
      q1.elements = q.elements.map f ∧ ∀ e, (f e).sameMarking e := by
  induction evs generalizing q with
  | nil => exact ⟨q, id, rfl, by simp, sameMarking_refl⟩
  | cons ev evs ih =>
    obtain ⟨q1, f, hstep, _, _, _, hq1, hf⟩ := step_sameMarking q ev
    obtain ⟨q2, g, hrun, hq2, hg⟩ := ih q1
    refine ⟨q2, g ∘ f, ?_, ?_, fun e => sameMarking_trans _ _ _ (hg (f e)) (hf e)⟩
    · simp only [run, hstep, hrun]
    · rw [hq2, hq1, List.map_map]

theorem getAttribute_congr (e1 e : Element) (name : JSString)
    (h : e1.attributes = e.attributes) : e1.getAttribute name = e.getAttribute name := by
  unfold Element.getAttribute
  rw [h]

/-- The marking `setPrSignificant` leaves on an element of class `pr`. -/
theorem setPrSignificant_result (p1 p2 : Page) (h : setPrSignificant p1 = .ok p2)
    (k : Nat) (e2 : Element) (hk : p2.elements[k]? = some e2) (hpr : clsPr ∈ e2.classList) :
    e2.significant ↔
      JSNumber.le (stringToNumber p1.thr_sig_slider)
        (parseFloat (e2.getAttribute attrZscore)) = true := by
  rw [setPrSignificant_eq] at h
  cases h
  simp only [List.getElem?_map, Option.map_eq_some'] at hk
  obtain ⟨e1, _, he1⟩ := hk
  by_cases h1 : clsPr ∈ e1.classList
  · rw [if_pos h1] at he1
    rw [← he1, setPrSignificantBody_significant,
      getAttribute_congr _ e1 attrZscore (setPrSignificantBody_attributes p1 e1)]
  · rw [if_neg h1] at he1
    rw [he1] at h1
    exact absurd hpr h1

/-- A min or max slider event on a page with the handlers of the ready
handler: the slider has its new value, the labels and the visibility are the
ones `setThrText` and `setPrVisible` give for the current slider values. -/
theorem step_establishes (q : Page) (ev : InputEvent)
    (hmin : q.thr_min_oninput = some .thrMinInput)
    (hmax : q.thr_max_oninput = some .thrMaxInput) (hev : ev.target ≠ .thrSig) :
    ∃ q1, step q ev = .ok q1 ∧
      (ev.target = .thrMin →
        q1.thr_min_slider = ev.value ∧ q1.thr_max_slider = q.thr_max_slider) ∧
      (ev.target = .thrMax →
        q1.thr_max_slider = ev.value ∧ q1.thr_min_slider = q.thr_min_slider) ∧
      q1.thr_sig_slider = q.thr_sig_slider ∧
      q1.thr_min_val = q1.thr_min_slider ∧ q1.thr_max_val = q1.thr_max_slider ∧
      q1.thr_andxor =
        (if greaterThan (.str q1.thr_max_slider) (.str q1.thr_min_slider) then txtAND
          else txtXOR) ∧
      setPrVisible (setThrText q1) = .ok q1 := by
  unfold step
  cases ht : ev.target with
  | thrMin =>
    simp only [hmin, Handler.run_eq]
    refine ⟨_, setPrVisible_eq _, fun _ => ⟨rfl, rfl⟩, fun h => absurd h (by decide),
      rfl, rfl, rfl, rfl, ?_⟩
    exact setThrText_setPrVisible_fixed _ _ (setPrVisible_eq _)
  | thrMax =>
    simp only [hmax, Handler.run_eq]
    refine ⟨_, setPrVisible_eq _, fun h => absurd h (by decide), fun _ => ⟨rfl, rfl⟩,
      rfl, rfl, rfl, rfl, ?_⟩
    exact setThrText_setPrVisible_fixed _ _ (setPrVisible_eq _)
  | thrSig => exact absurd ht hev

/-- C8: the ready handler registers the two handlers, leaves the `oninput` of
the significance slider as it was, and runs `setThrText`, `setPrVisible` and
`setPrSignificant` once each, in this order; each handler runs `setThrText`
then `setPrVisible`. From a page with these handlers, an input event on the min
or max slider ends with the labels and the visibility that `setThrText` and
`setPrVisible` give for the current slider values; an input event on any
slider leaves the class `significant` of every element as it was. After load
and any sequence of input events, a row of class `pr` is marked exactly when
its z-score reaches the threshold the significance slider had at load. -/
theorem ready_and_input_events (p : Page) :
    ∃ p1 p2,
      setPrVisible (setThrText { p with
        thr_min_oninput := some .thrMinInput, thr_max_oninput := some .thrMaxInput }) = .ok p1 ∧
      setPrSignificant p1 = .ok p2 ∧
      ready p = .ok p2 ∧
      p2.thr_min_oninput = some .thrMinInput ∧ p2.thr_max_oninput = some .thrMaxInput ∧
      p2.thr_sig_oninput = p.thr_sig_oninput ∧
      (∀ (h : Handler) (q : Page), h.run q = setPrVisible (setThrText q)) ∧
      (∀ (q : Page) (ev : InputEvent), q.thr_min_oninput = some .thrMinInput →
        q.thr_max_oninput = some .thrMaxInput → ev.target ≠ .thrSig →
        ∃ q1, step q ev = .ok q1 ∧
          (ev.target = .thrMin →
            q1.thr_min_slider = ev.value ∧ q1.thr_max_slider = q.thr_max_slider) ∧
          (ev.target = .thrMax →
            q1.thr_max_slider = ev.value ∧ q1.thr_min_slider = q.thr_min_slider) ∧
          q1.thr_sig_slider = q.thr_sig_slider ∧
          q1.thr_min_val = q1.thr_min_slider ∧ q1.thr_max_val = q1.thr_max_slider ∧
          q1.thr_andxor =
            (if greaterThan (.str q1.thr_max_slider) (.str q1.thr_min_slider) then txtAND
              else txtXOR) ∧
          setPrVisible (setThrText q1) = .ok q1) ∧
      (∀ (q : Page) (ev : InputEvent), ∃ q1, step q ev = .ok q1 ∧
        q1.elements.length = q.elements.length ∧
        ∀ (k : Nat) (e : Element), q.elements[k]? = some e →
          ∃ e1 : Element, q1.elements[k]? = some e1 ∧ (e1.significant ↔ e.significant)) ∧
      (∀ evs : List InputEvent, ∃ q, run p2 evs = .ok q ∧
        ∀ (k : Nat) (e : Element), q.elements[k]? = some e → clsPr ∈ e.classList →
          (e.significant ↔
            JSNumber.le (toNumber (.str p.thr_sig_slider))
              (parseFloat (e.getAttribute attrZscore)) = true)) := by
  have h1 := setPrVisible_eq (setThrText { p with
    thr_min_oninput := some .thrMinInput, thr_max_oninput := some .thrMaxInput })
  have h2 := setPrSignificant_eq { setThrText { p with
      thr_min_oninput := some .thrMinInput, thr_max_oninput := some .thrMaxInput } with
    elements := (setThrText { p with
      thr_min_oninput := some .thrMinInput, thr_max_oninput := some .thrMaxInput }).elements.map
        (fun e => if clsD ∈ e.classList then
          setPrVisibleBody (setThrText { p with
            thr_min_oninput := some .thrMinInput, thr_max_oninput := some .thrMaxInput }) e
          else e) }
  refine ⟨_, _, h1, h2, ?_, rfl, rfl, rfl, Handler.run_eq, step_establishes, ?_, ?_⟩
  · simp only [ready, h1, h2]
  · intro q ev
    obtain ⟨q1, f, hstep, _, _, _, hq1, hf⟩ := step_sameMarking q ev
    refine ⟨q1, hstep, by simp [hq1], fun k e he => ⟨f e, by simp [hq1, he], (hf e).1⟩⟩
  · intro evs
    obtain ⟨q, f, hrun, hq, hf⟩ := run_sameMarking _ evs
    refine ⟨q, hrun, fun k e he hpr => ?_⟩
    simp only [hq, List.getElem?_map, Option.map_eq_some'] at he
    obtain ⟨e2, he2, rfl⟩ := he
    have hsame := hf e2
    rw [hsame.1, getAttribute_congr _ e2 attrZscore hsame.2.1]
    exact setPrSignificant_result _ _ h2 k e2 (by simpa using he2) (hsame.2.2.1 hpr)

/-- C8 on a page whose row has z-score "2.0" with the threshold "2.0" at load:
the statement for this page, and a run in which the significance slider moves
to "3.0" and the max slider to "0.4"; the row is hidden and still marked. -/
theorem ready_and_input_events_witness :
    (∃ p1 p2,
      setPrVisible (setThrText { samplePage "0.2" "0.8" "2.0" [sampleRow "0.5" "2.0"] with
        thr_min_oninput := some .thrMinInput, thr_max_oninput := some .thrMaxInput }) = .ok p1 ∧
      setPrSignificant p1 = .ok p2 ∧
      ready (samplePage "0.2" "0.8" "2.0" [sampleRow "0.5" "2.0"]) = .ok p2) ∧
    Except.map (fun q => (q.thr_andxor, q.thr_max_val, q.thr_sig_slider,
        q.elements.map Element.classList))
      (Except.bind (ready (samplePage "0.2" "0.8" "2.0" [sampleRow "0.5" "2.0"]))
        (fun p2 => run p2 [⟨.thrSig, utf16 "3.0"⟩, ⟨.thrMax, utf16 "0.4"⟩])) =
      .ok (txtAND, utf16 "0.4", utf16 "3.0",
        [[clsD, clsPr, clsSignificant, clsInvisible]]) := by
  refine ⟨?_, by decide⟩
  obtain ⟨p1, p2, h1, h2, h3, _⟩ :=
    ready_and_input_events (samplePage "0.2" "0.8" "2.0" [sampleRow "0.5" "2.0"])
  exact ⟨p1, p2, h1, h2, h3⟩

end Eva
